import Mathlib

/-!
Shallow embedding of the hyperv-runner-pool orchestrator core, and proofs
checking the natural-language specification against it.

The embedding follows the Go sources:
  pkg/vmmanager/manager.go    (VMState, VMSlot, RunnerConfig)
  pkg/vmmanager/hyperv.go     (InjectConfig, CleanupLeftoverResources)
  pkg/orchestrator/monitoring.go
      (checkVMHealth, InitializePool, createAndRegisterVM, RecreateVM,
       RestartAllVMs, Shutdown, cleanupOfflineRunners)
  pkg/config/config.go        (LoadFromFile default handling)
  pkg/github/client.go        (GetRunnerToken)

External effects (PowerShell invocations, HTTP calls to GitHub, the clock)
are modelled as explicit environment records passed to the embedded
functions.  Go strings are modelled as Lean strings operated on at the
rune (Char) level; the byte-level slicing in the source only ever splits
at character boundaries for the ASCII markers in use, where both views
agree.  The string operations from Go's standard library that the code
uses are re-implemented below by structural recursion on the character
list so that concrete executions reduce inside the kernel.
-/

namespace HyperVPool

/-! ### Go string operations (strings package), char-level -/

/-- Go strings.Split(s, sep) for the single-character separator used by
the code (sep is the one-character string consisting of `c`): splits the
character list at every occurrence of `c`. -/
def splitOnChar (c : Char) : List Char → List (List Char)
  | [] => [[]]
  | x :: xs =>
      match splitOnChar c xs with
      | [] => if x = c then [[], [x]] else [[x]]
      | y :: ys => if x = c then [] :: y :: ys else (x :: y) :: ys

/-- Go strings.TrimSpace restricted to the whitespace characters that
can occur in the outputs at hand (space, tab, carriage return, newline):
drop whitespace from both ends. -/
def trimChars (l : List Char) : List Char :=
  ((l.dropWhile Char.isWhitespace).reverse.dropWhile Char.isWhitespace).reverse

/-- Go strings.Contains: whether `pat` occurs as a contiguous substring
of `l`. -/
def containsChars (pat : List Char) : List Char → Bool
  | [] => pat.isPrefixOf []
  | x :: xs => pat.isPrefixOf (x :: xs) || containsChars pat xs

/-! ### Data model (pkg/vmmanager/manager.go) -/

/-- VMState from manager.go: the lifecycle state of a VM slot. -/
inductive VMState where
  | empty
  | creating
  | ready
  | running
  | destroying
deriving DecidableEq, Repr

/-- VMSlot from manager.go, together with the fields `CreatedAt`,
`LastHealthCheck` and `HealthCheckFailures` that
orchestrator/monitoring.go reads on this struct.  The snapshot's
manager.go declares only `Name`, `State`, `RunnerToken`, `JobID`; the
declaration of the three monitoring fields is missing from the snapshot,
so they are carried here (times as integer nanoseconds, zero value 0 for
Go's zero time.Time) so that the monitoring code can be embedded.  No
code in the snapshot ever writes `CreatedAt`. -/
structure VMSlot where
  name : String
  state : VMState
  runnerToken : String
  jobID : Int
  createdAt : Int
  lastHealthCheck : Int
  healthCheckFailures : Nat
deriving DecidableEq, Repr

/-! ### Image injector (pkg/vmmanager/hyperv.go, InjectConfig) -/

/-- Result of one external PowerShell invocation: either an error (the
Go call returned a non-nil error) or the captured output string. -/
abbrev PSResult := Except String String

/-- Environment for one InjectConfig execution: the outcomes of its
external effects, in program order. -/
structure InjectEnv where
  /-- Result of running the mount script. -/
  mountResult : PSResult
  /-- Whether json.Marshal of the runner config succeeds. -/
  marshalOk : Bool
  /-- Error from os.WriteFile of the temp config file, if any. -/
  writeTempErr : Option String
  /-- Result of running the copy-and-verify script. -/
  copyResult : PSResult
deriving Repr

/-- Observable outcome of InjectConfig: the returned error (none means
success), whether the mount invocation succeeded, and whether the
Dismount-VHD command was executed before returning. -/
structure InjectOutcome where
  err : Option String
  mountCmdOk : Bool
  unmountCalled : Bool
deriving DecidableEq, Repr

/-- Drive-letter extraction from the mount output, as in InjectConfig
lines 204-213 of hyperv.go: split the output on newlines, trim each
line, take the first line carrying the drive-letter marker as its head,
drop the marker and trim what remains. -/
def parseDriveLetter (output : String) : String :=
  let marker := "DRIVE_LETTER:".data
  match (splitOnChar '\n' output.data).find? (fun line =>
      marker.isPrefixOf (trimChars line)) with
  | some line => String.mk (trimChars ((trimChars line).drop marker.length))
  | none => ""

/-- InjectConfig from hyperv.go lines 154-296.  Control flow as in the
source: run the mount script; on error, return.  Parse the drive letter;
if it is empty, return an error — at this point the deferred unmount has
NOT yet been installed (the defer appears at line 222, after the check
at lines 215-217), so no Dismount runs on this path.  After the defer is
installed, every later exit runs Dismount. -/
def InjectConfig (env : InjectEnv) : InjectOutcome :=
  match env.mountResult with
  | .error e =>
      { err := some ("failed to mount VHDX: " ++ e)
        mountCmdOk := false
        unmountCalled := false }
  | .ok output =>
      let driveLetter := parseDriveLetter output
      if driveLetter = "" then
        { err := some ("failed to extract drive letter from mount output: " ++ output)
          mountCmdOk := true
          unmountCalled := false }
      else
        -- defer Dismount-VHD installed here; all exits below unmount
        if !env.marshalOk then
          { err := some "failed to marshal config"
            mountCmdOk := true
            unmountCalled := true }
        else
          match env.writeTempErr with
          | some e =>
              { err := some ("failed to write temp config file: " ++ e)
                mountCmdOk := true
                unmountCalled := true }
          | none =>
              match env.copyResult with
              | .error e =>
                  { err := some ("failed to copy config to VHDX: " ++ e)
                    mountCmdOk := true
                    unmountCalled := true }
              | .ok copyOutput =>
                  if !(containsChars "SUCCESS".data copyOutput.data) then
                    { err := some ("config copy verification failed: " ++ copyOutput)
                      mountCmdOk := true
                      unmountCalled := true }
                  else
                    { err := none
                      mountCmdOk := true
                      unmountCalled := true }

/-- Claim C1: the claim asserts that whenever the mount step succeeds, the
unmount step runs before InjectConfig returns, on every exit path, in
particular on the path where no drive letter can be extracted from the
mount output.  The code violates exactly that path: with a successful
mount invocation whose output carries no drive-letter marker (here the
output a mock RunPowerShell produces), InjectConfig returns an error
with the mount having succeeded and Dismount-VHD never executed,
because the deferred unmount is installed only after the drive-letter
check. -/
theorem injectConfig_no_drive_letter_skips_unmount :
    (InjectConfig { mountResult := .ok "mock output", marshalOk := true,
                    writeTempErr := none, copyResult := .ok "SUCCESS" }).mountCmdOk = true ∧
    (InjectConfig { mountResult := .ok "mock output", marshalOk := true,
                    writeTempErr := none, copyResult := .ok "SUCCESS" }).unmountCalled = false ∧
    (InjectConfig { mountResult := .ok "mock output", marshalOk := true,
                    writeTempErr := none, copyResult := .ok "SUCCESS" }).err.isSome = true := by
  refine ⟨?_, ?_, ?_⟩ <;> rfl

/-! ### Orchestrator: createAndRegisterVM (monitoring.go lines 220-243) -/

/-- External effects of one createAndRegisterVM run: the GitHub token
issuance result, and the error of vmManager.CreateVM if any. -/
structure CreateEnv where
  tokenResult : Except String String
  createVMErr : Option String
deriving Repr

/-- Outcome of createAndRegisterVM: the returned error, the slot after
the call, whether the background monitor goroutine was launched, and the
sequence of values assigned to slot.State during the call. -/
structure CreateOutcome where
  err : Option String
  slot : VMSlot
  monitorStarted : Bool
  stateWrites : List VMState
deriving Repr

/-- createAndRegisterVM from monitoring.go lines 220-243: set the state
to Creating, issue the token (on error, return), store it in
RunnerToken, create the VM (on error, return), set the state to Ready
and launch the monitor.  Nothing here writes CreatedAt. -/
def createAndRegisterVM (slot : VMSlot) (env : CreateEnv) : CreateOutcome :=
  let slot := { slot with state := VMState.creating }
  match env.tokenResult with
  | .error e =>
      { err := some ("failed to get GitHub token: " ++ e)
        slot := slot
        monitorStarted := false
        stateWrites := [VMState.creating] }
  | .ok token =>
      let slot := { slot with runnerToken := token }
      match env.createVMErr with
      | some e =>
          { err := some ("failed to create VM: " ++ e)
            slot := slot
            monitorStarted := false
            stateWrites := [VMState.creating] }
      | none =>
          { err := none
            slot := { slot with state := VMState.ready }
            monitorStarted := true
            stateWrites := [VMState.creating, VMState.ready] }

/-! ### Orchestrator: RecreateVM and RestartAllVMs (monitoring.go) -/

/-- External effects of the destroy-and-recreate sequence: the DestroyVM
error (tolerated by the code) and the createAndRegisterVM effects. -/
structure RecreateEnv where
  destroyErr : Option String
  createEnv : CreateEnv
deriving Repr

/-- The slot lookup in RecreateVM lines 248-254: the first slot of the
pool whose Name equals the requested name. -/
def findSlot (pool : List VMSlot) (vmName : String) : Option VMSlot :=
  pool.find? (fun s => s.name = vmName)

/-- Replace the first slot with the given name (the Go code mutates the
found slot through its pointer; names are unique in the pool). -/
def setSlot : List VMSlot → String → VMSlot → List VMSlot
  | [], _, _ => []
  | s :: rest, vmName, s' =>
      if s.name = vmName then s' :: rest else s :: setSlot rest vmName s'

/-- Outcome of RecreateVM: returned error, pool after the call, whether
DestroyVM and createAndRegisterVM were invoked, and the sequence of
state writes performed on the located slot. -/
structure RecreateOutcome where
  err : Option String
  pool : List VMSlot
  destroyCalled : Bool
  createCalled : Bool
  stateWrites : List VMState
deriving Repr

/-- RecreateVM from monitoring.go lines 246-277: locate the slot by
name (error if absent); set its state to Destroying; call DestroyVM and
tolerate its error (logged, recreation continues); call
createAndRegisterVM on the same slot, wrapping its error if any. -/
def RecreateVM (pool : List VMSlot) (vmName : String) (env : RecreateEnv) :
    RecreateOutcome :=
  match findSlot pool vmName with
  | none =>
      { err := some ("VM slot not found: " ++ vmName)
        pool := pool
        destroyCalled := false
        createCalled := false
        stateWrites := [] }
  | some slot =>
      let slot1 := { slot with state := VMState.destroying }
      -- DestroyVM runs here; env.destroyErr is only logged
      let c := createAndRegisterVM slot1 env.createEnv
      { err := c.err.map (fun e => "failed to recreate VM: " ++ e)
        pool := setSlot pool vmName c.slot
        destroyCalled := true
        createCalled := true
        stateWrites := VMState.destroying :: c.stateWrites }

/-- The per-slot body of RestartAllVMs lines 295-315: set Destroying,
destroy (error tolerated), createAndRegisterVM; the error, if any, is
reported as a restart failure for that slot. -/
def restartSlot (s : VMSlot) (env : RecreateEnv) : CreateOutcome :=
  let s1 := { s with state := VMState.destroying }
  createAndRegisterVM s1 env.createEnv

/-- RestartAllVMs from monitoring.go lines 280-338: under the pool
lock, run the restart body on every slot and collect the errors. -/
def RestartAllVMs (pool : List VMSlot) (envs : Nat → RecreateEnv) :
    List VMSlot × List String :=
  let outcomes := pool.enum.map (fun p => (p.2, restartSlot p.2 (envs p.1)))
  (outcomes.map (fun o => o.2.slot),
   outcomes.filterMap (fun o =>
     o.2.err.map (fun e => "failed to restart " ++ o.1.name ++ ": " ++ e)))

/-! ### Orchestrator: InitializePool and Shutdown (monitoring.go) -/

/-- The name-prefix defaulting repeated in InitializePool lines 156-159
and Shutdown lines 350-353: an empty configured prefix falls back to
the literal runner prefix. -/
def defaultPfx (p : String) : String := if p = "" then "runner-" else p

/-- Slot naming in InitializePool line 180: prefix followed by the
1-based slot ordinal. -/
def slotName (pfx : String) (i : Nat) : String := pfx ++ toString (i + 1)

/-- A freshly allocated slot as built in InitializePool lines 182-185:
named, state Empty, all other fields at their Go zero values. -/
def freshSlot (n : String) : VMSlot :=
  { name := n, state := VMState.empty, runnerToken := "", jobID := 0,
    createdAt := 0, lastHealthCheck := 0, healthCheckFailures := 0 }

/-- Outcome of InitializePool: the slot array after the parallel
creation fan-out joined, the collected per-slot errors, and whether the
two startup sweeps ran. -/
structure InitOutcome where
  pool : List VMSlot
  errs : List String
  localSweepRan : Bool
  registrySweepRan : Bool
deriving Repr

/-- InitializePool from monitoring.go lines 154-217: default the
prefix; run the local resource sweep then the registry sweep (both
errors tolerated); allocate poolSize slots named prefix+1..prefix+size
starting Empty; run createAndRegisterVM on each and collect errors.
Go's loop runs zero times for a non-positive pool size. -/
def InitializePool (poolSize : Int) (pfxCfg : String) (envs : Nat → CreateEnv) :
    InitOutcome :=
  let pfx := defaultPfx pfxCfg
  let outcomes := (List.range poolSize.toNat).map
    (fun i => (i, createAndRegisterVM (freshSlot (slotName pfx i)) (envs i)))
  { pool := outcomes.map (fun o => o.2.slot)
    errs := outcomes.filterMap (fun o =>
      o.2.err.map (fun e => "failed to initialize " ++ slotName pfx o.1 ++ ": " ++ e))
    localSweepRan := true
    registrySweepRan := true }

/-- The two sweeps Shutdown performs, in order. -/
inductive SweepKind where
  | registry
  | localResources
deriving DecidableEq, Repr

/-- External effects of Shutdown: the error of the registry sweep
(cleanupOfflineRunners) and of the local sweep
(CleanupLeftoverResources), if any. -/
structure ShutdownEnv where
  registrySweepErr : Option String
  localSweepErr : Option String
deriving Repr

/-- Observable outcome of Shutdown. -/
structure ShutdownOutcome where
  contextCancelled : Bool
  sleptNs : Int
  sweepsRun : List SweepKind
  returned : Option String
deriving Repr

/-- Shutdown from monitoring.go lines 341-370: cancel the pool context;
sleep one second; default the prefix; run the registry sweep, whose
error is only logged (the source comments that shutdown must not fail
due to GitHub API errors); run the local sweep and return its error if
it has one; otherwise return nil. -/
def Shutdown (pfxCfg : String) (env : ShutdownEnv) : ShutdownOutcome :=
  let _pfx := defaultPfx pfxCfg
  -- registry sweep runs first; env.registrySweepErr is only logged
  match env.localSweepErr with
  | some e =>
      { contextCancelled := true
        sleptNs := 1000000000
        sweepsRun := [SweepKind.registry, SweepKind.localResources]
        returned := some e }
  | none =>
      { contextCancelled := true
        sleptNs := 1000000000
        sweepsRun := [SweepKind.registry, SweepKind.localResources]
        returned := none }

/-! ### Registry sweep selection (monitoring.go, cleanupOfflineRunners) -/

/-- A registered runner as listed from GitHub. -/
structure RunnerInfo where
  id : Int
  name : String
  status : String
deriving DecidableEq, Repr

/-- The digit check of cleanupOfflineRunners lines 407-413: every rune
of the suffix lies between the characters for zero and nine. -/
def isDigitsChars (l : List Char) : Bool :=
  l.all (fun ch => decide ('0' ≤ ch) && decide (ch ≤ '9'))

/-- The name filter of cleanupOfflineRunners lines 399-424: the name is
strictly longer than the prefix, starts with the prefix, and its
remaining suffix consists of digits only. -/
def runnerNameMatches (pfx name : String) : Bool :=
  decide (pfx.data.length < name.data.length) &&
  decide (name.data.take pfx.data.length = pfx.data) &&
  isDigitsChars (name.data.drop pfx.data.length)

/-- The runners cleanupOfflineRunners marks for removal: exactly those
whose name passes the filter, independently of their status (the source
comments that matching runners are removed regardless of status). -/
def cleanupSelect (pfx : String) (runners : List RunnerInfo) : List RunnerInfo :=
  runners.filter (fun r => runnerNameMatches pfx r.name)

/-- External effects of cleanupOfflineRunners: the listing result and
the per-runner removal error, if any. -/
structure RegistryEnv where
  listResult : Except String (List RunnerInfo)
  removeErr : Int → Option String
deriving Inhabited

/-- Observable outcome of cleanupOfflineRunners: the returned error and
the runners on which RemoveRunner was invoked, in order. -/
structure RegistryOutcome where
  err : Option String
  deregisterCalls : List RunnerInfo
deriving Repr

/-- cleanupOfflineRunners from monitoring.go lines 375-450: list all
runners (on error, return); select those matching the prefix+digits
shape; call RemoveRunner on each, collecting failures; return an error
iff any removal failed. -/
def cleanupOfflineRunners (pfx : String) (env : RegistryEnv) : RegistryOutcome :=
  match env.listResult with
  | .error e =>
      { err := some ("failed to list runners: " ++ e), deregisterCalls := [] }
  | .ok runners =>
      let toRemove := cleanupSelect pfx runners
      let errs := toRemove.filterMap (fun r =>
        (env.removeErr r.id).map (fun e => "failed to remove " ++ r.name ++ ": " ++ e))
      { err := if 0 < errs.length then some "encountered errors removing runners" else none
        deregisterCalls := toRemove }

/-! ### Health check (monitoring.go, checkVMHealth) -/

/-- MonitoringConfig from config.go lines 59-63, values in the units
the YAML uses. -/
structure MonitoringConfig where
  healthCheckIntervalSeconds : Int
  creationTimeoutMinutes : Int
  gracePeriodMinutes : Int
deriving DecidableEq, Repr

/-- Go time.Duration(m) * time.Minute, in nanoseconds. -/
def minutesToNs (m : Int) : Int := m * 60000000000

/-- External effects and clock reading of one checkVMHealth tick. -/
structure HealthEnv where
  now : Int
  powerState : Except String String
  runnerLookup : Except String (Option RunnerInfo)
deriving Repr

/-- checkVMHealth from monitoring.go lines 48-112: query the power
state (on error, count a failure, no recreation); recreate if the state
is Off or Stopped; if the slot is Creating, recreate only past the
creation timeout; past the grace period, query GitHub (on error, count
a failure, no recreation), recreate if the runner is missing or not
online; otherwise reset the failure counter and stamp the check time.
Returns the (shouldRecreate, reason) pair and the slot as updated. -/
def checkVMHealth (slot : VMSlot) (env : HealthEnv) (cfg : MonitoringConfig) :
    (Bool × String) × VMSlot :=
  let creationTimeout := minutesToNs cfg.creationTimeoutMinutes
  let gracePeriod := minutesToNs cfg.gracePeriodMinutes
  match env.powerState with
  | .error _ =>
      ((false, ""), { slot with healthCheckFailures := slot.healthCheckFailures + 1 })
  | .ok st =>
      if st = "Off" ∨ st = "Stopped" then
        ((true, "VM power state is Off/Stopped"), slot)
      else if slot.state = VMState.creating then
        if creationTimeout < env.now - slot.createdAt then
          ((true, "VM stuck in Creating state (timeout)"), slot)
        else
          ((false, ""), { slot with lastHealthCheck := env.now, healthCheckFailures := 0 })
      else
        if gracePeriod < env.now - slot.createdAt then
          match env.runnerLookup with
          | .error _ =>
              ((false, ""), { slot with healthCheckFailures := slot.healthCheckFailures + 1 })
          | .ok none =>
              ((true, "Runner not found in GitHub after grace period"), slot)
          | .ok (some runner) =>
              if runner.status ≠ "online" then
                ((true, "Runner is offline in GitHub"), slot)
              else
                ((false, ""), { slot with lastHealthCheck := env.now, healthCheckFailures := 0 })
        else
          ((false, ""), { slot with lastHealthCheck := env.now, healthCheckFailures := 0 })

/-! ### Configuration defaults (config.go, LoadFromFile) -/

/-- RunnersConfig from config.go lines 40-46. -/
structure RunnersConfig where
  poolSize : Int
  namePfx : String
  labels : List String
  runnerGroup : String
  cacheURL : String
deriving DecidableEq, Repr

/-- The runner-pool defaulting of LoadFromFile, config.go lines 89-95:
a zero pool size becomes 1, an empty name prefix becomes the literal
runner prefix. -/
def setRunnersDefaults (r : RunnersConfig) : RunnersConfig :=
  let r := if r.poolSize = 0 then { r with poolSize := 1 } else r
  if r.namePfx = "" then { r with namePfx := "runner-" } else r

/-! ### Identity client (pkg/github/client.go, GetRunnerToken) -/

/-- The configuration fields GetRunnerToken consults. -/
structure GhConfig where
  useMock : Bool
  org : String
  user : String
  repo : String
deriving DecidableEq, Repr

/-- GetAccount from config.go lines 32-37: the org if set, else the
user. -/
def getAccount (c : GhConfig) : String := if c.org ≠ "" then c.org else c.user

/-- A GitHub App installation as returned by ListInstallations. -/
structure InstInfo where
  accountLogin : String
  accountType : String
  instId : Int
deriving DecidableEq, Repr

/-- External effects and clock reading of one GetRunnerToken call.  The
token-creation results carry the HTTP status code the response had. -/
structure GhEnv where
  nowUnixNano : Int
  transportErr : Option String
  listInstallations : Except String (List InstInfo)
  repoTokenResult : Except String (String × Int)
  orgTokenResult : Except String (String × Int)
deriving Repr

/-- GetRunnerToken from client.go lines 31-122, returning the result
together with the number of network requests issued.  In mock mode the
token is the literal mock-runner-token prefix followed by the monotonic
nanosecond clock, with no network I/O.  Otherwise: build the app
transport (local key file, no network), list installations, find the
configured account, then create a repo- or org-scoped registration
token, rejecting personal accounts without a repo and any status other
than 201. -/
def GetRunnerToken (cfg : GhConfig) (env : GhEnv) : Except String String × Nat :=
  if cfg.useMock then
    (.ok ("mock-runner-token-" ++ toString env.nowUnixNano), 0)
  else
    match env.transportErr with
    | some e => (.error ("failed to create GitHub App transport: " ++ e), 0)
    | none =>
      match env.listInstallations with
      | .error e => (.error ("failed to list installations: " ++ e), 1)
      | .ok insts =>
        let account := getAccount cfg
        match insts.find? (fun i => i.accountLogin = account) with
        | none => (.error ("GitHub App is not installed on account " ++ account), 1)
        | some inst =>
          let isUserAccount := inst.accountType = "User"
          if cfg.repo ≠ "" then
            match env.repoTokenResult with
            | .error e => (.error ("failed to create repo runner token: " ++ e), 2)
            | .ok (tok, status) =>
                if status ≠ 201 then
                  (.error "GitHub API error: unexpected status code", 2)
                else (.ok tok, 2)
          else if isUserAccount then
            (.error "personal accounts (User type) require a repository to be specified", 1)
          else
            match env.orgTokenResult with
            | .error e => (.error ("failed to create org runner token: " ++ e), 2)
            | .ok (tok, status) =>
                if status ≠ 201 then
                  (.error "GitHub API error: unexpected status code", 2)
                else (.ok tok, 2)

/-! ### Sample values used by witnesses -/

/-- A concrete Ready slot. -/
def sampleSlot : VMSlot :=
  { name := "runner-1", state := VMState.ready, runnerToken := "tok0",
    jobID := 0, createdAt := 0, lastHealthCheck := 0, healthCheckFailures := 0 }

/-- A concrete successful createAndRegisterVM environment. -/
def sampleCreateEnvOk : CreateEnv := { tokenResult := .ok "tok1", createVMErr := none }

/-- A concrete recreate environment whose DestroyVM call fails. -/
def sampleRecreateEnv : RecreateEnv :=
  { destroyErr := some "stuck VM", createEnv := sampleCreateEnvOk }

/-! ### Claim C2 -/

/-- Claim C2 asserts that createAndRegisterVM stamps the slot's
createdAt with the time of entry into Creating.  The code does not:
createAndRegisterVM sets the state to Creating (and to Ready on
success) but never writes CreatedAt — no assignment to that field
exists anywhere in the snapshot, and the VMSlot declaration in
manager.go does not even declare it, while checkVMHealth reads it.
This theorem shows that createdAt is left unchanged by every run, and
that in consequence a slot whose creation just failed (one nanosecond
past five minutes of process time, with the field still at the Go zero
time) is immediately reported as stuck in Creating by its very first
health tick, although it entered Creating only now. -/
theorem createAndRegisterVM_never_stamps_createdAt :
    (∀ slot env, (createAndRegisterVM slot env).slot.createdAt = slot.createdAt) ∧
    ((createAndRegisterVM (freshSlot "runner-1")
        { tokenResult := .ok "tok", createVMErr := some "boom" }).slot.state
      = VMState.creating) ∧
    ((createAndRegisterVM (freshSlot "runner-1")
        { tokenResult := .ok "tok", createVMErr := some "boom" }).slot.createdAt = 0) ∧
    ((checkVMHealth
        (createAndRegisterVM (freshSlot "runner-1")
          { tokenResult := .ok "tok", createVMErr := some "boom" }).slot
        { now := 300000000001, powerState := .ok "Running", runnerLookup := .ok none }
        { healthCheckIntervalSeconds := 30, creationTimeoutMinutes := 5,
          gracePeriodMinutes := 5 }).1
      = (true, "VM stuck in Creating state (timeout)")) := by
  refine ⟨?_, rfl, rfl, by decide⟩
  intro slot env
  cases env with
  | mk t c => cases t <;> cases c <;> rfl

/-! ### Claim C3 -/

/-- Claim C3 asserts that Shutdown returns the first sweep error, in
particular the registry sweep's error when the local sweep succeeds.
Counterexample: with a failing registry sweep and a succeeding local
sweep, Shutdown returns no error at all — the source logs the registry
sweep error and deliberately does not fail shutdown on it. -/
theorem shutdown_does_not_return_registry_error :
    ¬ ((Shutdown "runner-"
          { registrySweepErr := some "github down", localSweepErr := none }).returned
        = some "github down") := by
  decide

/-- Claim C3 as amended: Shutdown cancels the pool context, sleeps one
second, runs the registry sweep first and the local sweep second, logs
(and never returns) the registry sweep's error, and returns exactly the
local sweep's error, if any. -/
theorem shutdown_spec :
    ∀ pfxCfg env,
      (Shutdown pfxCfg env).contextCancelled = true ∧
      (Shutdown pfxCfg env).sleptNs = 1000000000 ∧
      (Shutdown pfxCfg env).sweepsRun = [SweepKind.registry, SweepKind.localResources] ∧
      (Shutdown pfxCfg env).returned = env.localSweepErr := by
  intro pfxCfg env
  cases env with
  | mk r l => cases l <;> exact ⟨rfl, rfl, rfl, rfl⟩

/-! ### Claim C4 -/

/-- Claim C4 asserts that a loaded configuration with pool_size = 0
starts the system with zero slots.  Counterexample: LoadFromFile's
defaulting treats a zero pool size as unset and replaces it by 1, so
initializing the pool from the loaded configuration creates one slot,
not zero. -/
theorem loaded_pool_size_zero_creates_one_slot :
    ¬ ((InitializePool
          (setRunnersDefaults
            { poolSize := 0, namePfx := "runner-", labels := [],
              runnerGroup := "", cacheURL := "" }).poolSize
          (setRunnersDefaults
            { poolSize := 0, namePfx := "runner-", labels := [],
              runnerGroup := "", cacheURL := "" }).namePfx
          (fun _ => sampleCreateEnvOk)).pool.length = 0) := by
  decide

/-- Claim C4 as amended: a configuration file specifying pool_size = 0
is coerced by LoadFromFile's defaulting to pool_size = 1, so the loaded
system starts with one slot; InitializePool itself, when given pool
size 0 directly, performs both startup sweeps and creates no VM
slots. -/
theorem pool_size_zero_spec :
    ∀ rc : RunnersConfig, rc.poolSize = 0 →
      ((setRunnersDefaults rc).poolSize = 1 ∧
       ∀ pfxCfg envs,
         (InitializePool 0 pfxCfg envs).pool = [] ∧
         (InitializePool 0 pfxCfg envs).localSweepRan = true ∧
         (InitializePool 0 pfxCfg envs).registrySweepRan = true) := by
  intro rc h
  constructor
  · simp only [setRunnersDefaults, h, if_pos rfl]
    by_cases hp : rc.namePfx = "" <;> simp [hp]
  · intro pfxCfg envs
    exact ⟨rfl, rfl, rfl⟩

/-- Witness for pool_size_zero_spec at a concrete configuration. -/
theorem pool_size_zero_spec_witness :
    (setRunnersDefaults
      { poolSize := 0, namePfx := "", labels := [], runnerGroup := "",
        cacheURL := "" }).poolSize = 1 ∧
    (InitializePool 0 "runner-" (fun _ => sampleCreateEnvOk)).pool = [] := by
  have h := pool_size_zero_spec
    { poolSize := 0, namePfx := "", labels := [], runnerGroup := "", cacheURL := "" } rfl
  exact ⟨h.1, (h.2 "runner-" (fun _ => sampleCreateEnvOk)).1⟩

/-! ### Claim C9 -/

/-- A concrete GetRunnerToken environment with the monotonic clock at
5 nanoseconds. -/
def sampleGhEnv : GhEnv :=
  { nowUnixNano := 5, transportErr := none, listInstallations := .ok [],
    repoTokenResult := .ok ("t", 201), orgTokenResult := .ok ("t", 201) }

instance (priority := low) : DecidableEq (Except String String) := fun a b =>
  match a, b with
  | .error x, .error y =>
      if h : x = y then .isTrue (by simp [h]) else .isFalse (by simp [h])
  | .error _, .ok _ => .isFalse (by simp)
  | .ok _, .error _ => .isFalse (by simp)
  | .ok x, .ok y =>
      if h : x = y then .isTrue (by simp [h]) else .isFalse (by simp [h])

/-- Claim C9 asserts that in mock mode the issued token is the literal
mock prefix immediately followed by the monotonic nanosecond clock.
Counterexample: at clock value 5 the issued token is
mock-runner-token-5, not mock-5 — after the mock prefix comes the
literal runner-token marker, not the timestamp. -/
theorem mock_token_not_mock_ns :
    ¬ ((GetRunnerToken { useMock := true, org := "o", user := "", repo := "" }
          sampleGhEnv).1 = .ok ("mock-" ++ toString (5 : Int))) := by
  decide

/-- Claim C9 as amended: in mock mode, GetRunnerToken performs no
network request and returns the token consisting of the literal
mock-runner-token- prefix followed by the monotonic nanosecond clock,
on every invocation. -/
theorem mock_token_spec :
    ∀ cfg env, cfg.useMock = true →
      (GetRunnerToken cfg env).1 = .ok ("mock-runner-token-" ++ toString env.nowUnixNano) ∧
      (GetRunnerToken cfg env).2 = 0 := by
  intro cfg env h
  simp [GetRunnerToken, h]

/-- Witness for mock_token_spec at a concrete configuration and clock. -/
theorem mock_token_spec_witness :
    (GetRunnerToken { useMock := true, org := "o", user := "", repo := "" }
        sampleGhEnv).1 = .ok "mock-runner-token-5" ∧
    (GetRunnerToken { useMock := true, org := "o", user := "", repo := "" }
        sampleGhEnv).2 = 0 := by
  have h := mock_token_spec { useMock := true, org := "o", user := "", repo := "" }
    sampleGhEnv rfl
  exact ⟨h.1, h.2⟩

/-! ### Claim C10 -/

/-- Claim C10: when createAndRegisterVM returns an error (token
issuance failed or CreateVM failed), the slot is left in state Creating
— neither reset to Empty nor moved to Destroying — its RunnerToken
keeps whatever value was assigned before the failure (the pre-existing
one on token failure, the freshly issued one on CreateVM failure), and
no monitor goroutine is started for this incarnation. -/
theorem createAndRegisterVM_failure_leaves_creating :
    ∀ slot env, (createAndRegisterVM slot env).err.isSome = true →
      (createAndRegisterVM slot env).slot.state = VMState.creating ∧
      (createAndRegisterVM slot env).monitorStarted = false ∧
      (createAndRegisterVM slot env).slot.runnerToken =
        (match env.tokenResult with
         | .ok t => t
         | .error _ => slot.runnerToken) := by
  intro slot env h
  cases env with
  | mk t c => cases t <;> cases c <;> simp_all [createAndRegisterVM]

/-- Witness for createAndRegisterVM_failure_leaves_creating at a
concrete failing environment (CreateVM fails after a token was
issued). -/
theorem createAndRegisterVM_failure_witness :
    (createAndRegisterVM sampleSlot
        { tokenResult := .ok "tokX", createVMErr := some "boom" }).slot.state
      = VMState.creating ∧
    (createAndRegisterVM sampleSlot
        { tokenResult := .ok "tokX", createVMErr := some "boom" }).monitorStarted = false ∧
    (createAndRegisterVM sampleSlot
        { tokenResult := .ok "tokX", createVMErr := some "boom" }).slot.runnerToken
      = "tokX" := by
  have h := createAndRegisterVM_failure_leaves_creating sampleSlot
    { tokenResult := .ok "tokX", createVMErr := some "boom" } rfl
  exact ⟨h.1, h.2.1, h.2.2⟩

/-! ### Claim C7 -/

/-- Claim C7: on a health tick, a power-state query error increments
healthFailures and never requests recreation; a returned power state of
Off or Stopped always requests recreation; and a GitHub lookup error on
a slot past Creating never requests recreation either — transient
driver or identity errors alone never cause a recreation request. -/
theorem checkVMHealth_policy :
    ∀ slot env cfg,
      (∀ e, env.powerState = .error e →
        (checkVMHealth slot env cfg).1 = (false, "") ∧
        (checkVMHealth slot env cfg).2.healthCheckFailures
          = slot.healthCheckFailures + 1) ∧
      (∀ st, env.powerState = .ok st → (st = "Off" ∨ st = "Stopped") →
        (checkVMHealth slot env cfg).1 = (true, "VM power state is Off/Stopped")) ∧
      (∀ st e, env.powerState = .ok st → st ≠ "Off" → st ≠ "Stopped" →
        slot.state ≠ VMState.creating → env.runnerLookup = .error e →
        (checkVMHealth slot env cfg).1.1 = false) := by
  intro slot env cfg
  refine ⟨?_, ?_, ?_⟩
  · intro e he
    simp [checkVMHealth, he]
  · intro st hst hoff
    simp [checkVMHealth, hst, hoff]
  · intro st e hst hne1 hne2 hcr hlk
    simp only [checkVMHealth, hst, hlk]
    simp [hne1, hne2, hcr]
    split <;> rfl

/-- Witness for checkVMHealth_policy: the three policies at concrete
environments (a failing power query; an Off power state; a GitHub
lookup failure on a Ready slot past the grace period). -/
theorem checkVMHealth_policy_witness :
    ((checkVMHealth sampleSlot
        { now := 0, powerState := .error "hv down", runnerLookup := .ok none }
        { healthCheckIntervalSeconds := 30, creationTimeoutMinutes := 5,
          gracePeriodMinutes := 5 }).1 = (false, "")) ∧
    ((checkVMHealth sampleSlot
        { now := 0, powerState := .ok "Off", runnerLookup := .ok none }
        { healthCheckIntervalSeconds := 30, creationTimeoutMinutes := 5,
          gracePeriodMinutes := 5 }).1 = (true, "VM power state is Off/Stopped")) ∧
    ((checkVMHealth sampleSlot
        { now := 300000000001, powerState := .ok "Running",
          runnerLookup := .error "github down" }
        { healthCheckIntervalSeconds := 30, creationTimeoutMinutes := 5,
          gracePeriodMinutes := 5 }).1.1 = false) := by
  refine ⟨?_, ?_, ?_⟩
  · exact ((checkVMHealth_policy sampleSlot
      { now := 0, powerState := .error "hv down", runnerLookup := .ok none }
      { healthCheckIntervalSeconds := 30, creationTimeoutMinutes := 5,
        gracePeriodMinutes := 5 }).1 "hv down" rfl).1
  · exact (checkVMHealth_policy sampleSlot
      { now := 0, powerState := .ok "Off", runnerLookup := .ok none }
      { healthCheckIntervalSeconds := 30, creationTimeoutMinutes := 5,
        gracePeriodMinutes := 5 }).2.1 "Off" rfl (Or.inl rfl)
  · exact (checkVMHealth_policy sampleSlot
      { now := 300000000001, powerState := .ok "Running",
        runnerLookup := .error "github down" }
      { healthCheckIntervalSeconds := 30, creationTimeoutMinutes := 5,
        gracePeriodMinutes := 5 }).2.2 "Running" "github down" rfl
      (by decide) (by decide) (by decide) rfl

/-! ### Claim C8 -/

/-- The recreate-failure error string never coincides with the
slot-not-found error string: their first characters differ. -/
theorem wrapped_recreate_ne_notfound (e n : String) :
    "failed to recreate VM: " ++ e ≠ "VM slot not found: " ++ n := by
  intro h
  have h2 : ("failed to recreate VM: " ++ e).data.head?
      = ("VM slot not found: " ++ n).data.head? := by rw [h]
  have h3 : ('f' : Char) = 'V' := Option.some.inj h2
  exact absurd h3 (by decide)

/-- Unfolding of RecreateVM when the slot lookup fails. -/
theorem RecreateVM_eq_missing {pool : List VMSlot} {vmName : String}
    {env : RecreateEnv} (hf : findSlot pool vmName = none) :
    RecreateVM pool vmName env =
      { err := some ("VM slot not found: " ++ vmName)
        pool := pool
        destroyCalled := false
        createCalled := false
        stateWrites := [] } := by
  unfold RecreateVM
  rw [hf]

/-- Unfolding of RecreateVM when the slot lookup finds a slot. -/
theorem RecreateVM_eq_found {pool : List VMSlot} {vmName : String}
    {env : RecreateEnv} {slot : VMSlot} (hf : findSlot pool vmName = some slot) :
    RecreateVM pool vmName env =
      { err := (createAndRegisterVM { slot with state := VMState.destroying }
            env.createEnv).err.map (fun e => "failed to recreate VM: " ++ e)
        pool := setSlot pool vmName
          (createAndRegisterVM { slot with state := VMState.destroying }
            env.createEnv).slot
        destroyCalled := true
        createCalled := true
        stateWrites := VMState.destroying ::
          (createAndRegisterVM { slot with state := VMState.destroying }
            env.createEnv).stateWrites } := by
  unfold RecreateVM
  rw [hf]

/-- Claim C8: RecreateVM fails with the no-such-slot error exactly when
no slot in the pool carries the requested name; when the slot exists,
it is first set to Destroying, DestroyVM's error is tolerated (the
conclusions hold for every destroy outcome) and createAndRegisterVM is
invoked on that same slot, so a failing destroy never prevents the
replacement attempt. -/
theorem RecreateVM_spec :
    ∀ pool vmName env,
      ((RecreateVM pool vmName env).err = some ("VM slot not found: " ++ vmName) ↔
        ∀ s ∈ pool, s.name ≠ vmName) ∧
      (∀ slot, findSlot pool vmName = some slot →
        (RecreateVM pool vmName env).destroyCalled = true ∧
        (RecreateVM pool vmName env).createCalled = true ∧
        (RecreateVM pool vmName env).stateWrites
          = VMState.destroying ::
              (createAndRegisterVM { slot with state := VMState.destroying }
                env.createEnv).stateWrites ∧
        (RecreateVM pool vmName env).pool
          = setSlot pool vmName
              (createAndRegisterVM { slot with state := VMState.destroying }
                env.createEnv).slot) := by
  intro pool vmName env
  match hf : findSlot pool vmName with
  | none =>
      refine ⟨?_, ?_⟩
      · constructor
        · intro _ s hs
          have := (List.find?_eq_none.mp hf) s hs
          simpa using this
        · intro _
          rw [RecreateVM_eq_missing hf]
      · intro slot hslot
        exact absurd hslot (by simp)
  | some slot =>
      have hmem : slot ∈ pool := List.mem_of_find?_eq_some hf
      have hname : slot.name = vmName := by
        have := List.find?_some hf
        simpa using this
      refine ⟨?_, ?_⟩
      · constructor
        · intro h
          rw [RecreateVM_eq_found hf] at h
          cases hc : (createAndRegisterVM { slot with state := VMState.destroying }
              env.createEnv).err with
          | none => rw [hc] at h; simp at h
          | some e =>
              rw [hc] at h
              exact absurd (by simpa using h) (wrapped_recreate_ne_notfound e vmName)
        · intro h
          exact absurd hname (h slot hmem)
      · intro slot' hslot'
        have hss : slot' = slot := (Option.some.inj hslot').symm
        subst hss
        rw [RecreateVM_eq_found hf]
        exact ⟨rfl, rfl, rfl, rfl⟩

/-- Witness for RecreateVM_spec: on a one-slot pool holding the
requested name and a failing DestroyVM, recreation still runs
createAndRegisterVM on the slot set to Destroying; on an empty pool the
no-such-slot error is returned. -/
theorem RecreateVM_spec_witness :
    (RecreateVM [sampleSlot] "runner-1" sampleRecreateEnv).destroyCalled = true ∧
    (RecreateVM [sampleSlot] "runner-1" sampleRecreateEnv).createCalled = true ∧
    (RecreateVM [sampleSlot] "runner-1" sampleRecreateEnv).stateWrites
      = VMState.destroying ::
          (createAndRegisterVM { sampleSlot with state := VMState.destroying }
            sampleRecreateEnv.createEnv).stateWrites ∧
    (RecreateVM [] "ghost" sampleRecreateEnv).err
      = some ("VM slot not found: " ++ "ghost") := by
  have h1 := (RecreateVM_spec [sampleSlot] "runner-1" sampleRecreateEnv).2
    sampleSlot (by decide)
  have h2 := (RecreateVM_spec [] "ghost" sampleRecreateEnv).1.mpr (by simp)
  exact ⟨h1.1, h1.2.1, h1.2.2.1, h2⟩

/-! ### Claim C6 -/

/-- The code's name filter agrees with the specification's shape: the
name is the prefix followed by one or more decimal digits and nothing
else. -/
theorem runnerNameMatches_iff (pfx name : String) :
    runnerNameMatches pfx name = true ↔
      ∃ s : List Char, name.data = pfx.data ++ s ∧ s ≠ [] ∧
        ∀ c ∈ s, '0' ≤ c ∧ c ≤ '9' := by
  unfold runnerNameMatches isDigitsChars
  simp only [Bool.and_eq_true, decide_eq_true_iff, List.all_eq_true]
  constructor
  · rintro ⟨⟨hlen, htake⟩, hdig⟩
    refine ⟨name.data.drop pfx.data.length, ?_, ?_, ?_⟩
    · conv_lhs => rw [← List.take_append_drop pfx.data.length name.data]
      rw [htake]
    · intro hnil
      have hl := congrArg List.length hnil
      simp only [List.length_drop, List.length_nil] at hl
      omega
    · intro c hc
      have := hdig c hc
      simpa using this
  · rintro ⟨s, heq, hne, hdig⟩
    have hlen : name.data.length = pfx.data.length + s.length := by
      rw [heq]; simp
    have hpos : 0 < s.length := List.length_pos.mpr hne
    refine ⟨⟨by omega, ?_⟩, ?_⟩
    · rw [heq, List.take_left]
    · rw [heq, List.drop_left]
      intro c hc
      simpa using hdig c hc

/-- Claim C6: the registry sweep attempts deregistration of exactly
those listed runners whose name is the configured prefix followed by
one or more decimal digits and nothing else — in particular the
selection is independent of the runner's online/offline status, and a
runner whose name is the bare prefix or carries a non-digit suffix is
never deregistered. -/
theorem cleanup_deregisters_exactly_pool_names :
    ∀ pfx runners env r, env.listResult = .ok runners →
      (r ∈ (cleanupOfflineRunners pfx env).deregisterCalls ↔
        (r ∈ runners ∧ ∃ s : List Char, r.name.data = pfx.data ++ s ∧ s ≠ [] ∧
          ∀ c ∈ s, '0' ≤ c ∧ c ≤ '9')) := by
  intro pfx runners env r hlist
  have hcalls : (cleanupOfflineRunners pfx env).deregisterCalls
      = cleanupSelect pfx runners := by
    unfold cleanupOfflineRunners
    rw [hlist]
  rw [hcalls]
  unfold cleanupSelect
  rw [List.mem_filter]
  exact and_congr_right (fun _ => runnerNameMatches_iff pfx r.name)

/-- Witness for cleanup_deregisters_exactly_pool_names: with prefix
"r-" and a listing of an online pool runner "r-1", a stale offline pool
runner "r-9", a non-digit-suffixed "r-basic", and the bare prefix "r-",
the deregistration set contains "r-1" (although online) and does not
contain "r-basic". -/
theorem cleanup_deregisters_witness :
    ({ id := 1, name := "r-1", status := "online" } ∈
      (cleanupOfflineRunners "r-"
        { listResult := .ok
            [{ id := 1, name := "r-1", status := "online" },
             { id := 9, name := "r-9", status := "offline" },
             { id := 3, name := "r-basic", status := "offline" },
             { id := 4, name := "r-", status := "offline" }],
          removeErr := fun _ => none }).deregisterCalls) ∧
    ¬ ({ id := 3, name := "r-basic", status := "offline" } ∈
      (cleanupOfflineRunners "r-"
        { listResult := .ok
            [{ id := 1, name := "r-1", status := "online" },
             { id := 9, name := "r-9", status := "offline" },
             { id := 3, name := "r-basic", status := "offline" },
             { id := 4, name := "r-", status := "offline" }],
          removeErr := fun _ => none }).deregisterCalls) := by
  constructor
  · exact (cleanup_deregisters_exactly_pool_names "r-" _ _ _ rfl).mpr
      ⟨by decide, ['1'], by decide, by decide, by decide⟩
  · intro hmem
    have h := (cleanup_deregisters_exactly_pool_names "r-" _ _ _ rfl).mp hmem
    obtain ⟨-, s, heq, hne, hdig⟩ := h
    have hs : s = ['b', 'a', 's', 'i', 'c'] := by
      have := heq
      simpa using this.symm
    subst hs
    have := hdig 'b' (by decide)
    exact absurd this (by decide)

/-! ### Claim C5: slot state histories -/

/-- A slot paired with the full sequence of state values it has taken,
in order (its observed history, starting from the Empty it is allocated
in by InitializePool). -/
structure TrackedSlot where
  slot : VMSlot
  history : List VMState
deriving DecidableEq, Repr

/-- The destroy-and-recreate sequence both RecreateVM and RestartAllVMs
perform on a located slot, together with its writes appended to the
slot's history: first Destroying, then the writes of
createAndRegisterVM. -/
def recreateTracked (t : TrackedSlot) (env : RecreateEnv) : TrackedSlot :=
  let slot1 := { t.slot with state := VMState.destroying }
  let c := createAndRegisterVM slot1 env.createEnv
  { slot := c.slot, history := t.history ++ (VMState.destroying :: c.stateWrites) }

/-- The pool as InitializePool leaves it, with histories: each slot is
allocated in Empty and then run through createAndRegisterVM. -/
def initWorld (poolSize : Int) (pfxCfg : String) (envs : Nat → CreateEnv) :
    List TrackedSlot :=
  let pfx := defaultPfx pfxCfg
  (List.range poolSize.toNat).map (fun i =>
    let c := createAndRegisterVM (freshSlot (slotName pfx i)) (envs i)
    { slot := c.slot, history := VMState.empty :: c.stateWrites })

/-- RecreateVM's effect on the tracked pool: the first slot with the
requested name is destroyed and recreated; an unknown name changes
nothing. -/
def stepRecreate : List TrackedSlot → String → RecreateEnv → List TrackedSlot
  | [], _, _ => []
  | t :: rest, n, env =>
      if t.slot.name = n then recreateTracked t env :: rest
      else t :: stepRecreate rest n env

/-- RestartAllVMs' effect on the tracked pool: every slot is destroyed
and recreated, with its own environment. -/
def restartTracked (envs : Nat → RecreateEnv) : Nat → List TrackedSlot → List TrackedSlot
  | _, [] => []
  | i, t :: rest => recreateTracked t (envs i) :: restartTracked envs (i + 1) rest

/-- The operations that write slot states after initialization:
monitor- or admin-triggered RecreateVM, and admin RestartAllVMs. -/
inductive PoolEvent where
  | recreate (vmName : String) (env : RecreateEnv)
  | restartAll (envs : Nat → RecreateEnv)

/-- One orchestrator operation applied to the tracked pool. -/
def stepWorld (w : List TrackedSlot) : PoolEvent → List TrackedSlot
  | .recreate n env => stepRecreate w n env
  | .restartAll envs => restartTracked envs 0 w

/-- The tracked pool after InitializePool and any sequence of
operations. -/
def runPool (poolSize : Int) (pfxCfg : String) (envs : Nat → CreateEnv)
    (events : List PoolEvent) : List TrackedSlot :=
  events.foldl stepWorld (initWorld poolSize pfxCfg envs)

/-- The transition DAG of the specification: Empty to Creating;
Creating to Ready or Destroying; Ready to Running or Destroying;
Running to Destroying; Destroying to Empty or Creating. -/
def dagEdge : VMState → VMState → Bool
  | .empty, .creating => true
  | .creating, .ready => true
  | .creating, .destroying => true
  | .ready, .running => true
  | .ready, .destroying => true
  | .running, .destroying => true
  | .destroying, .empty => true
  | .destroying, .creating => true
  | _, _ => false

/-- Invariant carried through the runs: the history is a path through
the DAG, it ends at the slot's current state, and between operations a
slot rests in Creating (a failed creation) or Ready. -/
def goodT (t : TrackedSlot) : Prop :=
  List.Chain' (fun a b => dagEdge a b = true) t.history ∧
  t.history.getLast? = some t.slot.state ∧
  (t.slot.state = VMState.creating ∨ t.slot.state = VMState.ready)

/-- createAndRegisterVM writes Creating and stops there on failure, or
writes Creating then Ready on success; the slot ends in the last state
written. -/
theorem createAndRegisterVM_writes (slot : VMSlot) (env : CreateEnv) :
    ((createAndRegisterVM slot env).stateWrites = [VMState.creating] ∧
     (createAndRegisterVM slot env).slot.state = VMState.creating) ∨
    ((createAndRegisterVM slot env).stateWrites = [VMState.creating, VMState.ready] ∧
     (createAndRegisterVM slot env).slot.state = VMState.ready) := by
  cases env with
  | mk t c =>
      cases t <;> cases c <;> simp [createAndRegisterVM]

/-- The destroy-and-recreate sequence preserves the invariant. -/
theorem goodT_recreateTracked (t : TrackedSlot) (env : RecreateEnv)
    (h : goodT t) : goodT (recreateTracked t env) := by
  obtain ⟨hchain, hlast, hstate⟩ := h
  have hh : (recreateTracked t env).history
      = t.history ++ (VMState.destroying ::
          (createAndRegisterVM { t.slot with state := VMState.destroying }
            env.createEnv).stateWrites) := rfl
  have hsl : (recreateTracked t env).slot
      = (createAndRegisterVM { t.slot with state := VMState.destroying }
          env.createEnv).slot := rfl
  have hlink : ∀ x ∈ t.history.getLast?, ∀ y ∈ (VMState.destroying ::
      (createAndRegisterVM { t.slot with state := VMState.destroying }
        env.createEnv).stateWrites).head?, dagEdge x y = true := by
    intro x hx y hy
    rw [hlast] at hx
    simp only [Option.mem_def, Option.some.injEq] at hx
    simp only [List.head?_cons, Option.mem_def, Option.some.injEq] at hy
    subst hx; subst hy
    rcases hstate with h1 | h1 <;> rw [h1] <;> rfl
  rcases createAndRegisterVM_writes { t.slot with state := VMState.destroying }
      env.createEnv with ⟨hw, hs⟩ | ⟨hw, hs⟩
  · refine ⟨?_, ?_, ?_⟩
    · rw [hh, List.chain'_append]
      refine ⟨hchain, ?_, hlink⟩
      rw [hw]
      exact List.chain'_cons.mpr ⟨rfl, List.chain'_singleton _⟩
    · rw [hh, hsl, hs, List.getLast?_append, hw]
      rfl
    · rw [hsl, hs]
      exact Or.inl rfl
  · refine ⟨?_, ?_, ?_⟩
    · rw [hh, List.chain'_append]
      refine ⟨hchain, ?_, hlink⟩
      rw [hw]
      exact List.chain'_cons.mpr ⟨rfl,
        List.chain'_cons.mpr ⟨rfl, List.chain'_singleton _⟩⟩
    · rw [hh, hsl, hs, List.getLast?_append, hw]
      rfl
    · rw [hsl, hs]
      exact Or.inr rfl

/-- Every slot of the freshly initialized pool satisfies the
invariant. -/
theorem goodT_initWorld (poolSize : Int) (pfxCfg : String) (envs : Nat → CreateEnv) :
    ∀ t ∈ initWorld poolSize pfxCfg envs, goodT t := by
  intro t ht
  simp only [initWorld, List.mem_map, List.mem_range] at ht
  obtain ⟨i, -, rfl⟩ := ht
  rcases createAndRegisterVM_writes (freshSlot (slotName (defaultPfx pfxCfg) i))
      (envs i) with ⟨hw, hs⟩ | ⟨hw, hs⟩
  · refine ⟨?_, ?_, Or.inl hs⟩
    · show List.Chain' (fun a b => dagEdge a b = true) (VMState.empty ::
        (createAndRegisterVM (freshSlot (slotName (defaultPfx pfxCfg) i))
          (envs i)).stateWrites)
      rw [hw]
      exact List.chain'_cons.mpr ⟨rfl, List.chain'_singleton _⟩
    · show (VMState.empty ::
        (createAndRegisterVM (freshSlot (slotName (defaultPfx pfxCfg) i))
          (envs i)).stateWrites).getLast? = some _
      rw [hw, hs]
      rfl
  · refine ⟨?_, ?_, Or.inr hs⟩
    · show List.Chain' (fun a b => dagEdge a b = true) (VMState.empty ::
        (createAndRegisterVM (freshSlot (slotName (defaultPfx pfxCfg) i))
          (envs i)).stateWrites)
      rw [hw]
      exact List.chain'_cons.mpr ⟨rfl,
        List.chain'_cons.mpr ⟨rfl, List.chain'_singleton _⟩⟩
    · show (VMState.empty ::
        (createAndRegisterVM (freshSlot (slotName (defaultPfx pfxCfg) i))
          (envs i)).stateWrites).getLast? = some _
      rw [hw, hs]
      rfl

/-- Membership after a RecreateVM step: a slot is either untouched or
the destroy-and-recreate image of a slot of the previous pool. -/
theorem mem_stepRecreate {w : List TrackedSlot} {n : String}
    {env : RecreateEnv} {t' : TrackedSlot} (h : t' ∈ stepRecreate w n env) :
    t' ∈ w ∨ ∃ t ∈ w, t' = recreateTracked t env := by
  induction w with
  | nil => simp [stepRecreate] at h
  | cons a rest ih =>
      by_cases ha : a.slot.name = n
      · rw [stepRecreate, if_pos ha] at h
        rcases List.mem_cons.mp h with h1 | h1
        · exact Or.inr ⟨a, List.mem_cons_self a rest, h1⟩
        · exact Or.inl (List.mem_cons_of_mem a h1)
      · rw [stepRecreate, if_neg ha] at h
        rcases List.mem_cons.mp h with h1 | h1
        · exact Or.inl (h1 ▸ List.mem_cons_self a rest)
        · rcases ih h1 with h2 | ⟨t, hmem, h2⟩
          · exact Or.inl (List.mem_cons_of_mem a h2)
          · exact Or.inr ⟨t, List.mem_cons_of_mem a hmem, h2⟩

/-- Membership after a RestartAllVMs step: every slot is the
destroy-and-recreate image of a slot of the previous pool. -/
theorem mem_restartTracked {envs : Nat → RecreateEnv} {i : Nat}
    {w : List TrackedSlot} {t' : TrackedSlot} (h : t' ∈ restartTracked envs i w) :
    ∃ t ∈ w, ∃ env, t' = recreateTracked t env := by
  induction w generalizing i with
  | nil => simp [restartTracked] at h
  | cons a rest ih =>
      rw [restartTracked] at h
      rcases List.mem_cons.mp h with h1 | h1
      · exact ⟨a, List.mem_cons_self a rest, envs i, h1⟩
      · obtain ⟨t, hmem, env, h2⟩ := ih h1
        exact ⟨t, List.mem_cons_of_mem a hmem, env, h2⟩

/-- One operation preserves the invariant for every slot. -/
theorem goodT_stepWorld {w : List TrackedSlot} {e : PoolEvent}
    (h : ∀ t ∈ w, goodT t) : ∀ t' ∈ stepWorld w e, goodT t' := by
  intro t' ht'
  cases e with
  | recreate n env =>
      rcases mem_stepRecreate ht' with h1 | ⟨t, hmem, h1⟩
      · exact h t' h1
      · exact h1 ▸ goodT_recreateTracked t env (h t hmem)
  | restartAll envs =>
      obtain ⟨t, hmem, env, h1⟩ := mem_restartTracked ht'
      exact h1 ▸ goodT_recreateTracked t env (h t hmem)

/-- Claim C5: after InitializePool and any sequence of RecreateVM and
RestartAllVMs operations (each with arbitrary token, create and destroy
outcomes), every slot's observed sequence of state values is a path
through the transition DAG of the specification — no operation moves a
slot's state outside the permitted successor relation. -/
theorem slot_histories_follow_dag :
    ∀ (poolSize : Int) (pfxCfg : String) (envs : Nat → CreateEnv)
      (events : List PoolEvent) (t : TrackedSlot),
      t ∈ runPool poolSize pfxCfg envs events →
      List.Chain' (fun a b => dagEdge a b = true) t.history := by
  have main : ∀ (events : List PoolEvent) (w : List TrackedSlot),
      (∀ t ∈ w, goodT t) → ∀ t ∈ events.foldl stepWorld w, goodT t := by
    intro events
    induction events with
    | nil => intro w h; simpa using h
    | cons e es ih =>
        intro w h
        simp only [List.foldl_cons]
        exact ih (stepWorld w e) (goodT_stepWorld h)
  intro poolSize pfxCfg envs events t ht
  exact (main events _ (goodT_initWorld poolSize pfxCfg envs) t ht).1

/-- The tracked slot a one-slot pool holds after one successful
creation and one recreation that followed a failing DestroyVM. -/
def sampleTracked : TrackedSlot :=
  { slot := { name := "r-1", state := VMState.ready, runnerToken := "tok1",
              jobID := 0, createdAt := 0, lastHealthCheck := 0,
              healthCheckFailures := 0 },
    history := [VMState.empty, VMState.creating, VMState.ready,
                VMState.destroying, VMState.creating, VMState.ready] }

/-- Witness for slot_histories_follow_dag: a one-slot pool in which the
slot is created and then recreated once (with a failing DestroyVM); its
observed history Empty, Creating, Ready, Destroying, Creating, Ready is
a path through the DAG. -/
theorem slot_histories_follow_dag_witness :
    sampleTracked ∈ runPool 1 "r-" (fun _ => sampleCreateEnvOk)
        [PoolEvent.recreate "r-1" sampleRecreateEnv] ∧
    List.Chain' (fun a b => dagEdge a b = true) sampleTracked.history := by
  constructor
  · decide
  · exact slot_histories_follow_dag 1 "r-" (fun _ => sampleCreateEnvOk)
      [PoolEvent.recreate "r-1" sampleRecreateEnv] sampleTracked (by decide)

end HyperVPool
